import Mathlib

/-!
Shallow embedding of the water-meter collection daemon in
water-python-api.py: the WaterMeterDaemon class with its meter
reading/validation (_read_meter), database write (_store_reading),
connection and on-demand database creation (_connect_database), idempotent
schema provisioning (_setup_schema), health checking (_health_check) and
the main polling loop (run), together with theorems about the embedded
definitions.

External effects (HTTP responses, database statement outcomes, signal
delivery) are supplied as explicit oracle inputs; the control flow, the
failure-budget accounting, the exception propagation (which handler
catches what) and the sleep structure are translated from the source.
-/

namespace WaterMeter

/-- A JSON value as it appears in the meter payload: a number, a string,
or null.  (The json module would also allow booleans, arrays and objects;
the fields of this API carry numbers and strings, and any other shape
behaves like jnull under float() and int(): a TypeError.) -/
inductive JsonVal where
  | jnum (q : ℚ)
  | jstr (s : String)
  | jnull
  deriving DecidableEq, Repr

/-- A JSON object payload: association list of field names to values. -/
def Payload : Type := List (String × JsonVal)

instance : DecidableEq Payload := by unfold Payload; infer_instance

/-- Python dict lookup, data[k] or data.get(k): the value at key k, or
none when the key is absent. -/
def Payload.get (p : Payload) (k : String) : Option JsonVal :=
  (List.find? (fun kv => kv.1 == k) p).map (fun kv => kv.2)

/-- Numeric value of a digit character, none on a non-digit. -/
def digitVal (c : Char) : Option Nat :=
  if c.isDigit then some (c.toNat - 48) else none

/-- Accumulator form of reading an all-digit run as a natural number. -/
def parseDigitsAux : List Char → Nat → Option Nat
  | [], acc => some acc
  | c :: cs, acc =>
    match digitVal c with
    | some d => parseDigitsAux cs (acc * 10 + d)
    | none => none

/-- Reading of a non-empty all-digit character run as a natural number. -/
def parseDigits (cs : List Char) : Option Nat :=
  match cs with
  | [] => none
  | _ => parseDigitsAux cs 0

/-- Unsigned decimal literal ("12", "12.5", "12.", ".5") as a rational;
none when the characters are not a decimal literal.  This is the grammar
float() accepts on the payload strings this daemon meets (no exponent,
infinity or nan forms, which the meter API never emits). -/
def parseUnsigned (cs : List Char) : Option ℚ :=
  match cs.splitOn '.' with
  | [w] => (parseDigits w).map (fun n => (n : ℚ))
  | [w, f] =>
    if w = [] ∧ f = [] then none
    else
      match (if w = [] then some 0 else parseDigits w),
            (if f = [] then some 0 else parseDigits f) with
      | some a, some b => some ((a : ℚ) + (b : ℚ) / ((10 : ℚ) ^ f.length))
      | _, _ => none
  | _ => none

/-- Python float(s) on a string: parse an optionally signed decimal
literal; none models the ValueError raised on anything else. -/
def parseDecimal (s : String) : Option ℚ :=
  match s.toList with
  | [] => none
  | '-' :: rest => (parseUnsigned rest).map (fun q => -q)
  | '+' :: rest => parseUnsigned rest
  | cs => parseUnsigned cs

/-- Python float(v) on a JSON value: numbers pass through, strings are
parsed, anything else raises (none models the raised ValueError or
TypeError). -/
def pyFloat : JsonVal → Option ℚ
  | .jnum q => some q
  | .jstr s => parseDecimal s
  | .jnull => none

/-- Truncation toward zero, as Python int() applied to a float. -/
def ratTrunc (q : ℚ) : Int := q.num.tdiv (q.den : Int)

/-- Python int(s) on a string: an optionally signed all-digit literal
(int applied to "2.5" raises, unlike float). -/
def parseIntStr (s : String) : Option Int :=
  match s.toList with
  | '-' :: rest => (parseDigits rest).map (fun n => -(n : Int))
  | '+' :: rest => (parseDigits rest).map (fun n => (n : Int))
  | cs => (parseDigits cs).map (fun n => (n : Int))

/-- Python int(v) on a JSON value: numbers truncate toward zero, strings
parse as integer literals, anything else raises (none). -/
def pyInt : JsonVal → Option Int
  | .jnum q => some (ratTrunc q)
  | .jstr s => parseIntStr s
  | .jnull => none

/-! Embedding of _read_meter (source lines 223 to 246). -/

/-- Outcome of parsing the HTTP response body: response.json() either
raises JSONDecodeError (malformed) or yields a JSON object. -/
inductive BodyResult where
  | malformed
  | json (p : Payload)
  deriving DecidableEq

/-- Outcome of requests.get: a RequestException (connection or timeout
failure) or a response with a status code and body. -/
inductive HttpResult where
  | netFailure
  | response (status : Nat) (body : BodyResult)
  deriving DecidableEq

/-- List of the three mandatory payload fields checked by _read_meter
(source line 233). -/
def requiredFields : List String :=
  ["total_liter_m3", "active_liter_lpm", "wifi_strength"]

/-- Embedding of _read_meter: GET the meter endpoint, raise_for_status
(raises for statuses 400 to 599, caught as RequestException, giving None),
parse JSON (decode error caught, giving None), then require the three
mandatory fields, returning None if any is missing; otherwise return the
payload.  Only presence of the mandatory fields is validated, not their
type. -/
def read_meter : HttpResult → Option Payload
  | .netFailure => none
  | .response status body =>
    if 400 ≤ status ∧ status ≤ 599 then none
    else
      match body with
      | .malformed => none
      | .json p =>
        if requiredFields.all (fun f => (p.get f).isSome) then some p
        else none

/-! Embedding of _store_reading (source lines 248 to 279). -/

/-- Column values that _store_reading passes to the INSERT.  The time
column, set to datetime.now() at store time, is not modelled: no claim
concerns it. -/
structure Row where
  meter_id : String
  total_liter_m3 : ℚ
  active_liter_lpm : ℚ
  wifi_strength : Int
  wifi_ssid : Option JsonVal
  total_liter_offset_m3 : ℚ
  deriving DecidableEq

/-- Result of _store_reading: a successful insert of a row (True), a
psycopg2.Error caught by its handler (False), or an exception the handler
does not catch (ValueError, TypeError or KeyError from the value
conversions) which propagates out of the method. -/
inductive StoreResult where
  | ok (r : Row)
  | dbError
  | pyError
  deriving DecidableEq

/-- Mandatory-field access reading_data[k] fed to float: a KeyError when
absent is modelled by none flowing into the conversion, which then
raises. -/
def pyFloatOf : Option JsonVal → Option ℚ
  | none => none
  | some v => pyFloat v

/-- Same as pyFloatOf but for int conversion. -/
def pyIntOf : Option JsonVal → Option Int
  | none => none
  | some v => pyInt v

/-- Defaulting access reading_data.get(k, 0): the value at k, or the
number 0 when absent (source line 270). -/
def getOrZero (v : Option JsonVal) : JsonVal :=
  match v with
  | none => .jnum 0
  | some j => j

/-- Embedding of _store_reading: convert the payload fields in the order
the INSERT tuple evaluates them — float of total_liter_m3, float of
active_liter_lpm, int of wifi_strength, wifi_ssid via get with no
conversion, float of get(total_liter_offset_m3, 0) — any conversion
failure raises an exception not caught by the psycopg2.Error handler
(pyError); otherwise the INSERT runs, succeeding (ok) or failing with a
database error caught by the handler (dbError, returned as False).  The
oracle insertOk is the response of the database to the INSERT. -/
def store_reading (meterId : String) (d : Payload) (insertOk : Bool) :
    StoreResult :=
  match pyFloatOf (d.get "total_liter_m3") with
  | none => .pyError
  | some tl =>
    match pyFloatOf (d.get "active_liter_lpm") with
    | none => .pyError
    | some al =>
      match pyIntOf (d.get "wifi_strength") with
      | none => .pyError
      | some ws =>
        match pyFloat (getOrZero (d.get "total_liter_offset_m3")) with
        | none => .pyError
        | some off =>
          if insertOk then
            .ok ⟨meterId, tl, al, ws, d.get "wifi_ssid", off⟩
          else .dbError

/-! Embedding of _connect_database (source lines 67 to 123). -/

/-- Outcome of the first psycopg2.connect to the target database. -/
inductive FirstConnectResult where
  | ok
  /-- OperationalError whose text contains "database" and
  "does not exist". -/
  | opErrNoDb
  /-- Any other OperationalError — re-raised at line 119, then caught by
  the outer psycopg2.Error handler. -/
  | opErrOther
  /-- A psycopg2.Error that is not an OperationalError — caught directly
  by the outer handler. -/
  | otherDbErr
  deriving DecidableEq

/-- Oracle for the responses of the database server during
_connect_database: the first target connect, the administrative connect to
the default postgres database, the CREATE DATABASE statement, and the
retried target connect.  A false means the corresponding call raises a
psycopg2.Error. -/
structure ConnectEnv where
  first : FirstConnectResult
  adminOk : Bool
  createOk : Bool
  retryOk : Bool
  deriving DecidableEq

/-- Observable trace of one _connect_database call: the returned boolean,
how many CREATE DATABASE statements were issued, whether the admin
connection was closed, and how many connects to the target database were
attempted. -/
structure ConnectTrace where
  success : Bool
  createAttempts : Nat
  adminClosed : Bool
  targetConnectAttempts : Nat
  deriving DecidableEq

/-- Embedding of _connect_database: try the target database; on an
OperationalError saying the database does not exist, connect to the
default postgres database, issue one CREATE DATABASE, close the admin
connection, and retry the target connect once.  Every other
psycopg2.Error path — admin connect failure, failed create, failed retry,
any other first-connect error — falls to the outer handler, which logs and
returns False (lines 121 to 123); nothing escapes as an exception.  When
the CREATE DATABASE itself raises, the exception propagates before the
close of the admin connection is reached, so that connection is not closed
on that path. -/
def connect_database (env : ConnectEnv) : ConnectTrace :=
  match env.first with
  | .ok => ⟨true, 0, false, 1⟩
  | .opErrNoDb =>
    if !env.adminOk then ⟨false, 0, false, 1⟩
    else if !env.createOk then ⟨false, 1, false, 1⟩
    else if !env.retryOk then ⟨false, 1, true, 2⟩
    else ⟨true, 1, true, 2⟩
  | .opErrOther => ⟨false, 0, false, 1⟩
  | .otherDbErr => ⟨false, 0, false, 1⟩

/-! Embedding of _setup_schema (source lines 125 to 221). -/

/-- Record of which schema objects exist in the store, one flag per object
the provisioning touches. -/
structure SchemaState where
  tsExtension : Bool
  readingsTable : Bool
  maintenanceTable : Bool
  readingsHypertable : Bool
  maintenanceHypertable : Bool
  idxReadingsMeterTime : Bool
  idxMaintenanceMeterTime : Bool
  idxMaintenanceType : Bool
  deriving DecidableEq

/-- Existence query on pg_extension, then CREATE EXTENSION IF NOT EXISTS
timescaledb (lines 130 to 135).  Returns the new state and how many
objects were newly created. -/
def ensureExtension (s : SchemaState) : SchemaState × Nat :=
  if s.tsExtension then (s, 0) else ({ s with tsExtension := true }, 1)

/-- Statement CREATE TABLE IF NOT EXISTS water_readings
(lines 138 to 150). -/
def ensureReadingsTable (s : SchemaState) : SchemaState × Nat :=
  if s.readingsTable then (s, 0) else ({ s with readingsTable := true }, 1)

/-- Statement CREATE TABLE IF NOT EXISTS maintenance_log
(lines 153 to 168). -/
def ensureMaintenanceTable (s : SchemaState) : SchemaState × Nat :=
  if s.maintenanceTable then (s, 0)
  else ({ s with maintenanceTable := true }, 1)

/-- Catalog existence query on the hypertable catalog, then
create_hypertable for water_readings only when absent
(lines 171 to 180). -/
def ensureReadingsHypertable (s : SchemaState) : SchemaState × Nat :=
  if s.readingsHypertable then (s, 0)
  else ({ s with readingsHypertable := true }, 1)

/-- Catalog existence query, then create_hypertable for maintenance_log
only when absent (lines 183 to 192). -/
def ensureMaintenanceHypertable (s : SchemaState) : SchemaState × Nat :=
  if s.maintenanceHypertable then (s, 0)
  else ({ s with maintenanceHypertable := true }, 1)

/-- Statement CREATE INDEX IF NOT EXISTS idx_water_readings_meter_time
(lines 195 to 200). -/
def ensureIdxReadings (s : SchemaState) : SchemaState × Nat :=
  if s.idxReadingsMeterTime then (s, 0)
  else ({ s with idxReadingsMeterTime := true }, 1)

/-- Statement CREATE INDEX IF NOT EXISTS idx_maintenance_log_meter_time
(lines 202 to 207). -/
def ensureIdxMaintTime (s : SchemaState) : SchemaState × Nat :=
  if s.idxMaintenanceMeterTime then (s, 0)
  else ({ s with idxMaintenanceMeterTime := true }, 1)

/-- Statement CREATE INDEX IF NOT EXISTS idx_maintenance_log_type
(lines 209 to 214). -/
def ensureIdxMaintType (s : SchemaState) : SchemaState × Nat :=
  if s.idxMaintenanceType then (s, 0)
  else ({ s with idxMaintenanceType := true }, 1)

/-- Embedding of _setup_schema: run the guarded DDL operations in source
order against a healthy store; the result is the provisioned state and the
number of schema objects newly created.  A psycopg2.Error from the engine
would make the method return False; the idempotence claims concern the
healthy-engine behaviour of the guards, which is what the pure state
transformer captures — on an already-provisioned store every guard
suppresses its create, so no duplicate-object error can arise. -/
def setup_schema (s : SchemaState) : SchemaState × Nat :=
  let (s1, c1) := ensureExtension s
  let (s2, c2) := ensureReadingsTable s1
  let (s3, c3) := ensureMaintenanceTable s2
  let (s4, c4) := ensureReadingsHypertable s3
  let (s5, c5) := ensureMaintenanceHypertable s4
  let (s6, c6) := ensureIdxReadings s5
  let (s7, c7) := ensureIdxMaintTime s6
  let (s8, c8) := ensureIdxMaintType s7
  (s8, c1 + c2 + c3 + c4 + c5 + c6 + c7 + c8)

/-! Embedding of _health_check (source lines 281 to 290). -/

/-- Embedding of _health_check: a trivial SELECT 1 round trip; on a
psycopg2.Error it immediately calls _connect_database and returns that
result.  The oracle probeOk stands for the round-trip query outcome. -/
def health_check (probeOk : Bool) (reconnectEnv : ConnectEnv) : Bool :=
  if probeOk then true else (connect_database reconnectEnv).success

/-! Embedding of the polling loop, run (source lines 292 to 346).

One iteration of the while loop is driven by an oracle CycleInput
describing the environment of that cycle: the health-check round trip, the
reconnect environment should the probe fail, the HTTP response from the
meter, the answer of the database to the INSERT, and at which window (if
any) a shutdown signal is delivered.

Signal handling: _signal_handler (lines 62 to 65) runs asynchronously and
sets the running flag to False; the flag is consulted at the top of the
loop (line 309) and at the sleep guard (line 335).  Under CPython
(PEP 475) time.sleep is resumed for its remaining duration after a signal
handler returns without raising, so a signal delivered during a sleep does
not shorten the sleep; it is observed at the next while test.  The virtual
clock below therefore advances by the full sleep length whenever a sleep
is executed. -/

/-- Constant max_consecutive_failures, the hard-coded failure ceiling
(line 307). -/
def maxConsecutiveFailures : Nat := 5

/-- Constant cool-down slept after a failed health check (line 317) and
after an unexpected exception (line 341), in seconds. -/
def coolDownSeconds : Nat := 30

/-- Per-process configuration read from the environment (only the parts
the loop consults). -/
structure Config where
  meter_id : String
  collection_interval : Nat
  deriving DecidableEq

/-- Environment oracle for one loop iteration. -/
structure CycleInput where
  /-- Whether the SELECT 1 health probe succeeds. -/
  probeOk : Bool
  /-- Server responses for the reconnect attempted on probe failure. -/
  reconnectEnv : ConnectEnv
  /-- HTTP response of the meter endpoint this cycle. -/
  http : HttpResult
  /-- Whether the INSERT succeeds, should _store_reading reach it. -/
  insertOk : Bool
  /-- Whether a shutdown signal is delivered during the work of the cycle
  (between the while test and the sleep guard at line 335). -/
  cancelDuringWork : Bool
  /-- Whether a shutdown signal is delivered while the iteration sleeps. -/
  cancelDuringSleep : Bool
  deriving DecidableEq

/-- Stage at which the body of a cycle resolves. -/
inductive Stage where
  /-- Health check returned False (line 312). -/
  | healthFailS
  /-- Meter read returned None (line 327). -/
  | readMissS
  /-- Store returned False (line 325). -/
  | writeFailS
  /-- An exception escaped the cycle body into the general exception
  handler (line 338) — in this model, a conversion error inside
  _store_reading. -/
  | exnS
  /-- Health check, read and store all succeeded (line 324). -/
  | successS
  deriving DecidableEq

/-- Classification of one cycle, computed by running the embedded
_health_check, _read_meter and _store_reading on the oracle of the
cycle. -/
def stageOf (cfg : Config) (inp : CycleInput) : Stage :=
  if !health_check inp.probeOk inp.reconnectEnv then .healthFailS
  else
    match read_meter inp.http with
    | none => .readMissS
    | some d =>
      match store_reading cfg.meter_id d inp.insertOk with
      | .ok _ => .successS
      | .dbError => .writeFailS
      | .pyError => .exnS

/-- Observable state of the daemon loop. -/
structure DaemonState where
  /-- Mirrors self.running. -/
  running : Bool
  /-- Mirrors consecutive_failures. -/
  failures : Nat
  /-- Counts loop iterations that entered the cycle body. -/
  cyclesStarted : Nat
  /-- Counts invocations of _store_reading. -/
  storeCalls : Nat
  /-- Counts successful INSERTs. -/
  writes : Nat
  /-- Virtual seconds spent sleeping. -/
  clock : Nat
  /-- True once the loop has exited (by break or by the while test
  failing). -/
  stopped : Bool
  deriving DecidableEq

/-- One pass through the loop: the while test, then the cycle body.

With a failed health check (lines 312 to 318): increment, break when the
counter has reached the ceiling, otherwise sleep 30 seconds and continue;
this sleep is unconditional (no running-flag guard).

With a read miss or a store failure (lines 320 to 332): increment, then
the ceiling test at line 330 breaks; otherwise the guarded sleep at
lines 334 to 336 runs only when the running flag is still True — a signal
during the work skips the sleep entirely, a signal during the sleep lets
it finish (PEP 475) and is observed at the next while test.

With success (line 324): reset the counter to 0 (the line-330 test then
cannot fire), then the guarded sleep as above.

With an unexpected exception (lines 338 to 341): increment and sleep 30
seconds — the general exception handler performs NO ceiling test, so the
loop proceeds to the next while test regardless of the counter. -/
def runStep (cfg : Config) (inp : CycleInput) (s : DaemonState) :
    DaemonState :=
  if !s.running then { s with stopped := true }
  else
    let cancelAny := inp.cancelDuringWork || inp.cancelDuringSleep
    let s := { s with cyclesStarted := s.cyclesStarted + 1 }
    match stageOf cfg inp with
    | .healthFailS =>
      let f := s.failures + 1
      if maxConsecutiveFailures ≤ f then
        { s with failures := f, stopped := true,
                 running := !inp.cancelDuringWork }
      else
        { s with failures := f, clock := s.clock + coolDownSeconds,
                 running := !cancelAny }
    | .readMissS =>
      let f := s.failures + 1
      if maxConsecutiveFailures ≤ f then
        { s with failures := f, stopped := true,
                 running := !inp.cancelDuringWork }
      else if inp.cancelDuringWork then
        { s with failures := f, running := false }
      else
        { s with failures := f,
                 clock := s.clock + cfg.collection_interval,
                 running := !inp.cancelDuringSleep }
    | .writeFailS =>
      let s := { s with storeCalls := s.storeCalls + 1 }
      let f := s.failures + 1
      if maxConsecutiveFailures ≤ f then
        { s with failures := f, stopped := true,
                 running := !inp.cancelDuringWork }
      else if inp.cancelDuringWork then
        { s with failures := f, running := false }
      else
        { s with failures := f,
                 clock := s.clock + cfg.collection_interval,
                 running := !inp.cancelDuringSleep }
    | .successS =>
      let s := { s with storeCalls := s.storeCalls + 1,
                        writes := s.writes + 1, failures := 0 }
      if inp.cancelDuringWork then { s with running := false }
      else
        { s with clock := s.clock + cfg.collection_interval,
                 running := !inp.cancelDuringSleep }
    | .exnS =>
      { s with storeCalls := s.storeCalls + 1, failures := s.failures + 1,
               clock := s.clock + coolDownSeconds, running := !cancelAny }

/-- Iteration of runStep over a finite prefix of the environment schedule,
stopping once the loop has exited. -/
def runLoop (cfg : Config) (inputs : List CycleInput) (s : DaemonState) :
    DaemonState :=
  match inputs with
  | [] => s
  | inp :: rest =>
    if s.stopped then s else runLoop cfg rest (runStep cfg inp s)

/-- Value of the running flag when the loop is about to be entered:
line 305 assigns True unconditionally, so whatever _signal_handler wrote
earlier (it sets the flag to False) is overwritten.  The argument
preCancel records whether a shutdown signal was already delivered before
line 305. -/
def runningAtLoopEntry (preCancel : Bool) : Bool :=
  let afterInit := false
  let afterSignal := if preCancel then false else afterInit
  (fun _ => true) afterSignal

/-- State in which the polling loop starts (lines 305 to 307). -/
def initialLoopState (preCancel : Bool) : DaemonState :=
  { running := runningAtLoopEntry preCancel, failures := 0,
    cyclesStarted := 0, storeCalls := 0, writes := 0, clock := 0,
    stopped := false }

/-- Result of run (and hence of the process, via main). -/
structure RunResult where
  /-- Process exit status: 1 via sys.exit on startup failure, 0 when run
  returns normally and the script ends. -/
  exitCode : Nat
  /-- Loop state at exit. -/
  final : DaemonState
  /-- True when the cleanup closed the database connection
  (lines 344 to 345). -/
  dbClosed : Bool
  /-- True when the while loop was reached. -/
  loopEntered : Bool
  deriving DecidableEq

/-- Embedding of run: _connect_database (exit 1 on failure), _setup_schema
(exit 1 on failure; schemaOk is the cooperation of the engine with the DDL
statements), then the polling loop from initialLoopState, then the cleanup
that closes the database connection. -/
def run (cfg : Config) (startupEnv : ConnectEnv) (schemaOk : Bool)
    (preCancel : Bool) (inputs : List CycleInput) : RunResult :=
  if !(connect_database startupEnv).success then
    ⟨1, initialLoopState preCancel, false, false⟩
  else if !schemaOk then
    ⟨1, initialLoopState preCancel, false, false⟩
  else
    ⟨0, runLoop cfg inputs (initialLoopState preCancel), true, true⟩

/-! Concrete fixtures used by the theorems below. -/

/-- Server environment in which every connection attempt succeeds. -/
def envAllOk : ConnectEnv := ⟨.ok, true, true, true⟩

/-- Configuration with the default meter id and the default 300-second
collection interval. -/
def cfgDefault : Config := ⟨"default_meter", 300⟩

/-- The scenario payload of the spec: the three mandatory fields only. -/
def payloadScenario : Payload :=
  [("total_liter_m3", .jnum (123456 / 1000)),
   ("active_liter_lpm", .jnum (5 / 2)),
   ("wifi_strength", .jnum (-45))]

/-- A valid payload whose optional total_liter_offset_m3 is present but
not numeric. -/
def payloadStrOffset : Payload :=
  [("total_liter_m3", .jnum (123456 / 1000)),
   ("active_liter_lpm", .jnum (5 / 2)),
   ("wifi_strength", .jnum (-45)),
   ("total_liter_offset_m3", .jstr "abc")]

/-- A payload whose mandatory total_liter_m3 is present but a non-numeric
string. -/
def payloadStrTotal : Payload :=
  [("total_liter_m3", .jstr "abc"),
   ("active_liter_lpm", .jnum (5 / 2)),
   ("wifi_strength", .jnum (-45))]

/-- Cycle whose meter read misses (network failure), everything else
healthy. -/
def inpMiss : CycleInput := ⟨true, envAllOk, .netFailure, true, false, false⟩

/-- Fully successful cycle on the scenario payload. -/
def inpSuccess : CycleInput :=
  ⟨true, envAllOk, .response 200 (.json payloadScenario), true, false, false⟩

/-- Cycle in which the read succeeds but the store step raises a
conversion error (non-numeric mandatory field). -/
def inpExn : CycleInput :=
  ⟨true, envAllOk, .response 200 (.json payloadStrTotal), true, false, false⟩

/-- Fully successful cycle during whose inter-cycle sleep a shutdown
signal is delivered. -/
def inpSuccessCancelSleep : CycleInput :=
  ⟨true, envAllOk, .response 200 (.json payloadScenario), true, false, true⟩

example : stageOf cfgDefault inpMiss = .readMissS := rfl
example : stageOf cfgDefault inpSuccess = .successS := rfl
example : stageOf cfgDefault inpExn = .exnS := rfl
example :
    store_reading "default_meter" payloadScenario true
      = .ok ⟨"default_meter", 123456 / 1000, 5 / 2, -45, none, 0⟩ := rfl
example : store_reading "default_meter" payloadStrOffset true = .pyError :=
  rfl
example : read_meter (.response 200 (.json payloadStrTotal))
    = some payloadStrTotal := rfl
example :
    (runLoop cfgDefault [inpMiss, inpMiss, inpMiss, inpMiss, inpMiss]
      (initialLoopState false)).stopped = true := rfl
example :
    (runLoop cfgDefault [inpMiss, inpMiss, inpMiss, inpMiss, inpExn]
      (initialLoopState false)).stopped = false := rfl

/-! Helper lemmas about the loop. -/

/-- Once the running flag is down, further loop steps only mark the loop
as stopped: no cycle starts, no store call, no write, no counter
change. -/
theorem runLoop_frozen (cfg : Config) (inputs : List CycleInput)
    (s : DaemonState) (h : s.running = false) :
    (runLoop cfg inputs s).cyclesStarted = s.cyclesStarted
    ∧ (runLoop cfg inputs s).storeCalls = s.storeCalls
    ∧ (runLoop cfg inputs s).writes = s.writes
    ∧ (runLoop cfg inputs s).failures = s.failures := by
  induction inputs generalizing s with
  | nil => exact ⟨rfl, rfl, rfl, rfl⟩
  | cons inp rest ih =>
    by_cases hs : s.stopped
    · simp [runLoop, hs]
    · have hstep : runStep cfg inp s = { s with stopped := true } := by
        simp [runStep, h]
      simp only [runLoop, hs, if_false, hstep]
      exact ih { s with stopped := true } h

/-- A step taken while the daemon is running starts exactly one more
cycle. -/
theorem runStep_cycles_of_running (cfg : Config) (inp : CycleInput)
    (s : DaemonState) (h : s.running = true) :
    (runStep cfg inp s).cyclesStarted = s.cyclesStarted + 1 := by
  cases hst : stageOf cfg inp <;>
    simp [runStep, h, hst] <;> split_ifs <;> rfl

/-- The cycle counter never decreases across a step. -/
theorem runStep_cycles_mono (cfg : Config) (inp : CycleInput)
    (s : DaemonState) :
    s.cyclesStarted ≤ (runStep cfg inp s).cyclesStarted := by
  by_cases h : s.running = true
  · rw [runStep_cycles_of_running cfg inp s h]
    exact Nat.le_succ _
  · have h0 : s.running = false := by
      cases hx : s.running
      · rfl
      · exact absurd hx h
    have : runStep cfg inp s = { s with stopped := true } := by
      simp [runStep, h0]
    rw [this]

/-- The cycle counter never decreases across a loop run. -/
theorem runLoop_cycles_mono (cfg : Config) (inputs : List CycleInput)
    (s : DaemonState) :
    s.cyclesStarted ≤ (runLoop cfg inputs s).cyclesStarted := by
  induction inputs generalizing s with
  | nil => exact le_refl _
  | cons inp rest ih =>
    by_cases hs : s.stopped
    · simp [runLoop, hs]
    · simp only [runLoop, hs, if_false]
      exact le_trans (runStep_cycles_mono cfg inp s)
        (ih (runStep cfg inp s))

/-! Claim C1. -/

/-- C1, counterexample: with four consecutive read misses followed by a
cycle whose store step raises an unexpected exception, the
consecutive-failure counter reaches the ceiling 5 in the fifth cycle, yet
the loop is NOT stopped there (the general exception handler at line 338
performs no ceiling test) — the daemon remains running and a sixth cycle
starts.  This refutes the stated claim that the transition to Stopped
happens exactly in the cycle in which the counter reaches the ceiling for
a failure at every stage, including the unexpected-internal-fault path. -/
theorem C1_counterexample :
    (runLoop cfgDefault [inpMiss, inpMiss, inpMiss, inpMiss, inpExn]
        (initialLoopState false)).failures = 5
    ∧ (runLoop cfgDefault [inpMiss, inpMiss, inpMiss, inpMiss, inpExn]
        (initialLoopState false)).stopped = false
    ∧ (runLoop cfgDefault [inpMiss, inpMiss, inpMiss, inpMiss, inpExn]
        (initialLoopState false)).running = true
    ∧ (runLoop cfgDefault
        [inpMiss, inpMiss, inpMiss, inpMiss, inpExn, inpMiss]
        (initialLoopState false)).cyclesStarted = 6 :=
  ⟨rfl, rfl, rfl, rfl⟩

/-- C1, amended: in a running, not yet stopped state, a cycle failing at
the health-check, read or write stage stops the loop in that very cycle
exactly when the incremented counter has reached the ceiling of
maxConsecutiveFailures (5); a cycle resolving through the
unexpected-exception path never stops the loop in its own cycle, whatever
the counter, and a fully successful cycle never stops the loop. -/
theorem C1_stop_iff_ceiling (cfg : Config) (inp : CycleInput)
    (s : DaemonState) (hr : s.running = true) (hs : s.stopped = false) :
    ((stageOf cfg inp = .healthFailS ∨ stageOf cfg inp = .readMissS
        ∨ stageOf cfg inp = .writeFailS) →
      ((runStep cfg inp s).stopped = true
        ↔ maxConsecutiveFailures ≤ s.failures + 1))
    ∧ (stageOf cfg inp = .exnS → (runStep cfg inp s).stopped = false)
    ∧ (stageOf cfg inp = .successS → (runStep cfg inp s).stopped = false) := by
  refine ⟨?_, ?_, ?_⟩
  · intro h
    rcases h with h | h | h <;>
      simp only [runStep, hr, Bool.not_true, Bool.false_eq_true,
        if_false, h] <;>
      split_ifs <;> simp_all
  · intro h
    simp [runStep, hr, h, hs]
  · intro h
    simp only [runStep, hr, Bool.not_true, Bool.false_eq_true, if_false, h]
    split_ifs <;> simp [hs]

/-- C1, witness for the amended theorem: from the initial loop state with
the counter at 4 after four misses, a fifth miss stops the loop in that
cycle; from the fresh initial state, one miss does not. -/
theorem C1_witness :
    ((runStep cfgDefault inpMiss
        (runLoop cfgDefault [inpMiss, inpMiss, inpMiss, inpMiss]
          (initialLoopState false))).stopped = true
      ↔ maxConsecutiveFailures ≤ 4 + 1)
    ∧ (runStep cfgDefault inpExn (initialLoopState false)).stopped
        = false :=
  ⟨(C1_stop_iff_ceiling cfgDefault inpMiss
      (runLoop cfgDefault [inpMiss, inpMiss, inpMiss, inpMiss]
        (initialLoopState false)) rfl rfl).1 (Or.inr (Or.inl rfl)),
   (C1_stop_iff_ceiling cfgDefault inpExn
      (initialLoopState false) rfl rfl).2.1 rfl⟩

/-! Claim C2. -/

/-- C2: across one loop pass taken while the daemon is running, the
consecutive-failure counter becomes 0 exactly when the cycle resolves as
fully successful (health check, read and store all succeed) and becomes
the old counter plus one on a failure at any stage (health-check failure,
read miss, write failure, or unexpected exception); when the daemon is not
running no cycle body executes and the counter is unchanged.  Hence the
counter never decreases by any means other than the full reset to 0. -/
theorem C2_failure_budget (cfg : Config) (inp : CycleInput)
    (s : DaemonState) :
    (s.running = true →
      (runStep cfg inp s).failures
        = if stageOf cfg inp = .successS then 0 else s.failures + 1)
    ∧ (s.running = false → (runStep cfg inp s).failures = s.failures) := by
  constructor
  · intro hr
    cases hst : stageOf cfg inp <;>
      simp only [runStep, hr, Bool.not_true, Bool.false_eq_true, if_false,
        hst] <;>
      split_ifs <;> simp_all
  · intro hr
    simp [runStep, hr]

/-- C2, witness: a successful cycle resets a counter of 3 to 0, and a read
miss bumps it to 4. -/
theorem C2_witness :
    (runStep cfgDefault inpSuccess
        { running := true, failures := 3, cyclesStarted := 3,
          storeCalls := 0, writes := 0, clock := 0,
          stopped := false }).failures
      = if stageOf cfgDefault inpSuccess = .successS then 0 else 3 + 1 :=
  (C2_failure_budget cfgDefault inpSuccess
    { running := true, failures := 3, cyclesStarted := 3, storeCalls := 0,
      writes := 0, clock := 0, stopped := false }).1 rfl

/-! Claim C3. -/

/-- C3, counterexample: a shutdown signal delivered while the daemon is in
the inter-cycle sleep does NOT make the sleep return early — the plain
time.sleep call is resumed after the handler returns (PEP 475), so the
virtual clock advances by the full configured collection interval (here
300 seconds) before the cancellation is observed at the next while test.
This refutes the early-return part of the stated claim; the
no-further-cycle and no-further-write part does hold and is proved as the
amended theorem. -/
theorem C3_counterexample :
    (runStep cfgDefault inpSuccessCancelSleep (initialLoopState false)).clock
      = cfgDefault.collection_interval
    ∧ (runStep cfgDefault inpSuccessCancelSleep
        (initialLoopState false)).running = false
    ∧ (runLoop cfgDefault [inpMiss]
        (runStep cfgDefault inpSuccessCancelSleep
          (initialLoopState false))).stopped = true
    ∧ (runLoop cfgDefault [inpMiss]
        (runStep cfgDefault inpSuccessCancelSleep
          (initialLoopState false))).cyclesStarted
      = (runStep cfgDefault inpSuccessCancelSleep
          (initialLoopState false)).cyclesStarted :=
  ⟨rfl, rfl, rfl, rfl⟩

/-- C3, amended: when a cancellation is delivered during the inter-cycle
sleep of a non-stopping cycle, the sleep blocks for the full configured
collection interval (on a successful cycle the clock advances by exactly
that interval); the running flag is then down, so the loop reaches its
exit without starting another cycle and without invoking the store step
again — no write is performed after the cancellation is observed. -/
theorem C3_cancel_during_sleep (cfg : Config) (inp : CycleInput)
    (s : DaemonState) (rest : List CycleInput) (hr : s.running = true)
    (hw : inp.cancelDuringWork = false)
    (hc : inp.cancelDuringSleep = true)
    (hstop : (runStep cfg inp s).stopped = false) :
    (runStep cfg inp s).running = false
    ∧ (runLoop cfg rest (runStep cfg inp s)).cyclesStarted
        = (runStep cfg inp s).cyclesStarted
    ∧ (runLoop cfg rest (runStep cfg inp s)).storeCalls
        = (runStep cfg inp s).storeCalls
    ∧ (runLoop cfg rest (runStep cfg inp s)).writes
        = (runStep cfg inp s).writes
    ∧ (stageOf cfg inp = .successS →
        (runStep cfg inp s).clock = s.clock + cfg.collection_interval) := by
  have hrun : (runStep cfg inp s).running = false := by
    cases hst : stageOf cfg inp <;>
      simp only [runStep, hr, Bool.not_true, Bool.false_eq_true, if_false,
        hst, hw, hc] at hstop ⊢ <;>
      first
        | rfl
        | (split_ifs at hstop ⊢ <;> simp_all)
        | simp_all
  have hfrozen := runLoop_frozen cfg rest (runStep cfg inp s) hrun
  refine ⟨hrun, hfrozen.1, hfrozen.2.1, hfrozen.2.2.1, ?_⟩
  intro hst
  simp [runStep, hr, hst, hw]

/-- C3, witness for the amended theorem: concrete successful cycle with a
signal during the sleep, from the initial loop state. -/
theorem C3_witness :
    (runStep cfgDefault inpSuccessCancelSleep
        (initialLoopState false)).running = false
    ∧ (runLoop cfgDefault [inpMiss, inpSuccess]
        (runStep cfgDefault inpSuccessCancelSleep
          (initialLoopState false))).writes
      = (runStep cfgDefault inpSuccessCancelSleep
          (initialLoopState false)).writes :=
  ⟨(C3_cancel_during_sleep cfgDefault inpSuccessCancelSleep
      (initialLoopState false) [inpMiss, inpSuccess] rfl rfl rfl rfl).1,
   (C3_cancel_during_sleep cfgDefault inpSuccessCancelSleep
      (initialLoopState false) [inpMiss, inpSuccess] rfl rfl rfl rfl).2.2.2.1⟩

/-! Claim C4. -/

/-- C4, counterexample: the payload accepted by the read step whose
optional total_liter_offset_m3 is present but non-numeric (the string
"abc") makes the write step raise — float("abc") is a ValueError not
caught by the psycopg2.Error handler — instead of coercing the field to
the default 0.  This refutes the coerced-when-non-numeric part of the
stated claim. -/
theorem C4_counterexample :
    read_meter (.response 200 (.json payloadStrOffset))
      = some payloadStrOffset
    ∧ store_reading "default_meter" payloadStrOffset true = .pyError :=
  ⟨rfl, rfl⟩

/-- C4, amended: for every payload whose mandatory fields convert, when
total_liter_offset_m3 is ABSENT it is coerced to the documented default 0
and an absent wifi_ssid is stored as null, with no parse failure from
these optional fields; a PRESENT non-numeric offset, by contrast, raises
out of the write step (see the counterexample). -/
theorem C4_optional_defaults (m : String) (p : Payload) (a b : ℚ)
    (c : Int) (h1 : pyFloatOf (p.get "total_liter_m3") = some a)
    (h2 : pyFloatOf (p.get "active_liter_lpm") = some b)
    (h3 : pyIntOf (p.get "wifi_strength") = some c)
    (hoff : p.get "total_liter_offset_m3" = none)
    (hssid : p.get "wifi_ssid" = none) :
    store_reading m p true = .ok ⟨m, a, b, c, none, 0⟩ := by
  simp [store_reading, h1, h2, h3, hoff, hssid, getOrZero, pyFloat]

/-- C4, witness: the scenario payload of the spec — the write step is
invoked with total_liter_offset_m3 defaulted to 0 and wifi_ssid stored as
null. -/
theorem C4_witness :
    store_reading "default_meter" payloadScenario true
      = .ok ⟨"default_meter", 123456 / 1000, 5 / 2, -45, none, 0⟩ :=
  C4_optional_defaults "default_meter" payloadScenario (123456 / 1000)
    (5 / 2) (-45) rfl rfl rfl rfl rfl

/-! Claim C5. -/

/-- C5: when the first connect to the target database fails with the
does-not-exist error and the administrative connection, the create and the
retried connect all succeed, _connect_database returns success having
issued exactly one create-database operation, closed the administrative
connection, and opened the target connection exactly twice (the original
attempt plus exactly one retry); when the administrative connection fails
no create is attempted and the call returns failure; any other connection
failure (another operational error, another database error, a failed
create, or a failed retry) is likewise returned as failure rather than
raising. -/
theorem C5_connect_recovery (a c r : Bool) :
    connect_database ⟨.opErrNoDb, true, true, true⟩ = ⟨true, 1, true, 2⟩
    ∧ ((connect_database ⟨.opErrNoDb, false, c, r⟩).success = false
        ∧ (connect_database ⟨.opErrNoDb, false, c, r⟩).createAttempts = 0)
    ∧ connect_database ⟨.opErrOther, a, c, r⟩ = ⟨false, 0, false, 1⟩
    ∧ connect_database ⟨.otherDbErr, a, c, r⟩ = ⟨false, 0, false, 1⟩
    ∧ (connect_database ⟨.opErrNoDb, true, c, false⟩).success = false
    ∧ (connect_database ⟨.opErrNoDb, true, false, r⟩).success = false := by
  cases a <;> cases c <;> cases r <;> decide

/-- C5, witness: the recovery scenario evaluated at a concrete
environment. -/
theorem C5_witness :
    connect_database ⟨.opErrNoDb, true, true, true⟩ = ⟨true, 1, true, 2⟩
    ∧ (connect_database ⟨.opErrNoDb, false, true, true⟩).success = false :=
  ⟨(C5_connect_recovery true true true).1,
   (C5_connect_recovery true true true).2.1.1⟩

/-! Claim C6. -/

/-- C6: the read step returns absence (no sample) — never an exception —
on a network or timeout failure, on an error HTTP status (400 to 599,
which raise_for_status turns into a caught RequestException), on a
malformed (non-JSON) response body, and on any payload missing one of the
three mandatory fields total_liter_m3, active_liter_lpm and
wifi_strength. -/
theorem C6_read_absence :
    read_meter .netFailure = none
    ∧ (∀ (status : Nat) (body : BodyResult),
        400 ≤ status → status ≤ 599 →
          read_meter (.response status body) = none)
    ∧ (∀ status : Nat, read_meter (.response status .malformed) = none)
    ∧ (∀ (status : Nat) (p : Payload) (f : String),
        f ∈ requiredFields → p.get f = none →
          read_meter (.response status (.json p)) = none) := by
  refine ⟨rfl, ?_, ?_, ?_⟩
  · intro status body h1 h2
    simp [read_meter, h1, h2]
  · intro status
    by_cases h : 400 ≤ status ∧ status ≤ 599
    · simp [read_meter, h]
    · simp [read_meter, h]
  · intro status p f hf hg
    have hall : ¬ ∀ x ∈ requiredFields, (p.get x).isSome = true := by
      intro hforall
      have hx := hforall f hf
      rw [hg] at hx
      simp at hx
    by_cases h : 400 ≤ status ∧ status ≤ 599
    · simp [read_meter, h]
    · simp [read_meter, h, hall]

/-- C6, witness: a server error with a malformed body and an empty payload
missing every mandatory field both yield no sample. -/
theorem C6_witness :
    read_meter (.response 503 .malformed) = none
    ∧ read_meter (.response 200 (.json ([] : Payload))) = none :=
  ⟨C6_read_absence.2.1 503 .malformed (by decide) (by decide),
   C6_read_absence.2.2.2 200 ([] : Payload) "total_liter_m3"
     (by simp [requiredFields]) rfl⟩

/-! Claim C7. -/

/-- C7: the schema bootstrap is idempotent — from any schema state, a
second run of _setup_schema right after a first one leaves the store
unchanged and creates zero new schema objects (every DDL operation is
guarded by an existence query or create-if-missing semantics), so
re-running it on an already-provisioned store succeeds as a no-op with no
duplicate object. -/
theorem C7_bootstrap_idempotent (s : SchemaState) :
    (setup_schema (setup_schema s).1).1 = (setup_schema s).1
    ∧ (setup_schema (setup_schema s).1).2 = 0 := by
  obtain ⟨a, b, c, d, e, f, g, h⟩ := s
  revert a b c d e f g h
  decide

/-- C7, witness: idempotence evaluated from the empty (never-provisioned)
store. -/
theorem C7_witness :
    (setup_schema
        (setup_schema
          ⟨false, false, false, false, false, false, false, false⟩).1).1
      = (setup_schema
          ⟨false, false, false, false, false, false, false, false⟩).1
    ∧ (setup_schema
        (setup_schema
          ⟨false, false, false, false, false, false, false, false⟩).1).2
      = 0 :=
  C7_bootstrap_idempotent
    ⟨false, false, false, false, false, false, false, false⟩

/-! Claim C8. -/

/-- C8: when the initial connect fails the process exits with status 1
before the polling loop ever starts; when connect succeeds but the schema
bootstrap fails it likewise exits with status 1 before the loop; and in
the spec scenario — ceiling 5, five consecutive read misses with passing
health checks and no write attempts — the loop stops in the fifth cycle,
the store connection is closed, and the process exit status is 0. -/
theorem C8_exit_behaviour (cfg : Config) (cenv : ConnectEnv)
    (schemaOk preCancel : Bool) (inputs : List CycleInput) :
    ((connect_database cenv).success = false →
      (run cfg cenv schemaOk preCancel inputs).exitCode = 1
      ∧ (run cfg cenv schemaOk preCancel inputs).loopEntered = false)
    ∧ ((connect_database cenv).success = true →
      (run cfg cenv false preCancel inputs).exitCode = 1
      ∧ (run cfg cenv false preCancel inputs).loopEntered = false)
    ∧ ((connect_database cenv).success = true →
      (run cfg cenv true preCancel
          [inpMiss, inpMiss, inpMiss, inpMiss, inpMiss]).exitCode = 0
      ∧ (run cfg cenv true preCancel
          [inpMiss, inpMiss, inpMiss, inpMiss, inpMiss]).dbClosed = true
      ∧ (run cfg cenv true preCancel
          [inpMiss, inpMiss, inpMiss, inpMiss, inpMiss]).final.stopped
          = true
      ∧ (run cfg cenv true preCancel
          [inpMiss, inpMiss, inpMiss, inpMiss,
            inpMiss]).final.cyclesStarted = 5
      ∧ (run cfg cenv true preCancel
          [inpMiss, inpMiss, inpMiss, inpMiss, inpMiss]).final.writes = 0
      ∧ (run cfg cenv true preCancel
          [inpMiss, inpMiss, inpMiss, inpMiss, inpMiss]).final.failures
          = 5) := by
  refine ⟨?_, ?_, ?_⟩ <;> intro h
  · constructor <;> simp [run, h]
  · constructor <;> simp [run, h]
  · have hrun : run cfg cenv true preCancel
        [inpMiss, inpMiss, inpMiss, inpMiss, inpMiss]
        = ⟨0, runLoop cfg [inpMiss, inpMiss, inpMiss, inpMiss, inpMiss]
            (initialLoopState preCancel), true, true⟩ := by
      simp [run, h]
    rw [hrun]
    exact ⟨rfl, rfl, rfl, rfl, rfl, rfl⟩

/-- C8, witness: evaluated with a failing startup environment, a failing
bootstrap, and the five-miss scenario in a healthy environment. -/
theorem C8_witness :
    ((run cfgDefault ⟨.opErrOther, true, true, true⟩ true false
        []).exitCode = 1
      ∧ (run cfgDefault ⟨.opErrOther, true, true, true⟩ true false
        []).loopEntered = false)
    ∧ ((run cfgDefault envAllOk false false []).exitCode = 1
      ∧ (run cfgDefault envAllOk false false []).loopEntered = false)
    ∧ (run cfgDefault envAllOk true false
        [inpMiss, inpMiss, inpMiss, inpMiss, inpMiss]).exitCode = 0
    ∧ (run cfgDefault envAllOk true false
        [inpMiss, inpMiss, inpMiss, inpMiss, inpMiss]).dbClosed = true :=
  ⟨(C8_exit_behaviour cfgDefault ⟨.opErrOther, true, true, true⟩ true
      false []).1 rfl,
   (C8_exit_behaviour cfgDefault envAllOk false false []).2.1 rfl,
   ((C8_exit_behaviour cfgDefault envAllOk true false []).2.2 rfl).1,
   ((C8_exit_behaviour cfgDefault envAllOk true false []).2.2 rfl).2.1⟩

/-! Claim C9. -/

/-- C9: a cancellation delivered after construction but before the
polling loop begins is discarded — line 305 sets the running flag to True
unconditionally, overwriting the False written by the signal handler — so
with a successful startup the run with a pre-loop cancellation is
indistinguishable from a run without one, and the daemon enters the loop
and starts at least one cycle despite the earlier cancellation request. -/
theorem C9_precancel_discarded (cfg : Config) (cenv : ConnectEnv)
    (inp : CycleInput) (rest : List CycleInput)
    (h : (connect_database cenv).success = true) :
    runningAtLoopEntry true = true
    ∧ run cfg cenv true true (inp :: rest)
        = run cfg cenv true false (inp :: rest)
    ∧ 1 ≤ (run cfg cenv true true (inp :: rest)).final.cyclesStarted := by
  refine ⟨rfl, rfl, ?_⟩
  have hrun : run cfg cenv true true (inp :: rest)
      = ⟨0, runLoop cfg (inp :: rest) (initialLoopState true), true,
          true⟩ := by
    simp [run, h]
  rw [hrun]
  show 1 ≤ (runLoop cfg (inp :: rest) (initialLoopState true)).cyclesStarted
  have hcons : runLoop cfg (inp :: rest) (initialLoopState true)
      = runLoop cfg rest (runStep cfg inp (initialLoopState true)) := by
    simp [runLoop]
    intro hstop
    exact absurd hstop (by simp [initialLoopState])
  rw [hcons]
  have hmono := runLoop_cycles_mono cfg rest
    (runStep cfg inp (initialLoopState true))
  rw [runStep_cycles_of_running cfg inp (initialLoopState true) rfl]
    at hmono
  simpa using hmono

/-- C9, witness: with a healthy startup and one scheduled cycle, the run
started under a pre-loop cancellation still executes a cycle. -/
theorem C9_witness :
    run cfgDefault envAllOk true true [inpSuccess]
      = run cfgDefault envAllOk true false [inpSuccess]
    ∧ 1 ≤ (run cfgDefault envAllOk true true
        [inpSuccess]).final.cyclesStarted :=
  ⟨(C9_precancel_discarded cfgDefault envAllOk inpSuccess [] rfl).2.1,
   (C9_precancel_discarded cfgDefault envAllOk inpSuccess [] rfl).2.2⟩

/-! Claim C10. -/

/-- C10: the read step validates only presence, not type, of the
mandatory fields — a payload whose total_liter_m3 is the non-numeric
string "abc" is returned as a sample; the conversion inside the store step
then raises an error that its database-error handler does not catch
(pyError, not dbError), and at the cycle boundary the loop absorbs it as a
single failure-budget increment followed by a 30-second cool-down: no
reading is stored, the loop is not stopped, and the daemon keeps
running. -/
theorem C10_presence_only_validation (cfg : Config) (s : DaemonState)
    (hr : s.running = true) (hs : s.stopped = false) :
    read_meter (.response 200 (.json payloadStrTotal))
      = some payloadStrTotal
    ∧ store_reading cfg.meter_id payloadStrTotal true = .pyError
    ∧ (runStep cfg inpExn s).failures = s.failures + 1
    ∧ (runStep cfg inpExn s).writes = s.writes
    ∧ (runStep cfg inpExn s).clock = s.clock + coolDownSeconds
    ∧ (runStep cfg inpExn s).stopped = false
    ∧ (runStep cfg inpExn s).running = true := by
  have hst : stageOf cfg inpExn = .exnS := rfl
  refine ⟨rfl, rfl, ?_, ?_, ?_, ?_, ?_⟩ <;>
    simp [runStep, hr, hst, hs]
  exact ⟨rfl, rfl⟩

/-- C10, witness: the exception cycle evaluated from the fresh loop
state. -/
theorem C10_witness :
    (runStep cfgDefault inpExn (initialLoopState false)).failures = 0 + 1
    ∧ (runStep cfgDefault inpExn (initialLoopState false)).stopped
        = false :=
  ⟨(C10_presence_only_validation cfgDefault (initialLoopState false)
      rfl rfl).2.2.1,
   (C10_presence_only_validation cfgDefault (initialLoopState false)
      rfl rfl).2.2.2.2.2.1⟩

end WaterMeter
